import Mathlib

/-!
Verification of the meteo telegram ingestion and query service
(`meteo_telegram/main.py`) against its design specification.

The embedding models Python/JSON values as the inductive type `Value`
(dictionaries and lists are encoded with the mutually inductive `Entries`
and `ValueList` so that equality stays decidable), and the MongoDB-backed
operations as pure functions over explicit collection states.
-/

/-- Model of a Python `float`: either a finite value (represented exactly as
a rational) or one of the three non-finite values `inf`, `-inf`, `nan`.
`clean_data` only ever compares floats against `inf`/`-inf` and against
themselves (`x != x` holds exactly for `nan`), so this abstraction captures
every float operation the source performs. -/
inductive PyFloat where
  | finite (q : ℚ)
  | posInf
  | negInf
  | nan
deriving DecidableEq, Repr

/-- The condition tested by `clean_data`:
`data == float("inf") or data == float("-inf") or data != data`.
A Python float compares equal to `inf` iff it is `inf`, to `-inf` iff it is
`-inf`, and differs from itself iff it is `nan`. -/
def PyFloat.isInfOrNan : PyFloat → Bool
  | .posInf => true
  | .negInf => true
  | .nan => true
  | .finite _ => false

mutual
/-- A JSON-representable Python value: `None`, `bool`, `int`, `float`,
`str`, `dict` (string keys, insertion ordered) or `list`. -/
inductive Value where
  | vnull
  | vbool (b : Bool)
  | vint (n : Int)
  | vfloat (f : PyFloat)
  | vstr (s : String)
  | vdict (es : Entries)
  | vlist (xs : ValueList)
deriving DecidableEq, Repr
/-- The ordered key/value entries of a Python `dict`. -/
inductive Entries where
  | nil
  | cons (k : String) (v : Value) (rest : Entries)
deriving DecidableEq, Repr
/-- The elements of a Python `list`. -/
inductive ValueList where
  | nil
  | cons (v : Value) (rest : ValueList)
deriving DecidableEq, Repr
end

/-- Keys of a dict, in order. -/
def Entries.keys : Entries → List String
  | .nil => []
  | .cons k _ rest => k :: rest.keys

/-- Python `d[k]` / MongoDB field access: the first entry with key `k`. -/
def Entries.lookup : Entries → String → Option Value
  | .nil, _ => none
  | .cons k v rest, k' => if k = k' then some v else rest.lookup k'

/-- Number of entries carrying key `k`. -/
def Entries.countKey : Entries → String → Nat
  | .nil, _ => 0
  | .cons k _ rest, k' => (if k = k' then 1 else 0) + rest.countKey k'

/-- Python `d.pop(k, None)` restricted to dicts with unique keys: removes
every entry with key `k`. -/
def Entries.eraseKey : Entries → String → Entries
  | .nil, _ => .nil
  | .cons k v rest, k' =>
      if k = k' then rest.eraseKey k' else .cons k v (rest.eraseKey k')

/-- Keep exactly the entries whose key is listed in `fs` (MongoDB inclusion
projection restricted to the `data` subdocument). -/
def Entries.filterKeys : Entries → List String → Entries
  | .nil, _ => .nil
  | .cons k v rest, fs =>
      if k ∈ fs then .cons k v (rest.filterKeys fs) else rest.filterKeys fs

mutual
/-- Shallow embedding of `clean_data` (main.py lines 26-35): recursively
replaces every float that is `inf`, `-inf` or `nan` by `None`; dicts are
rewritten per key, lists per element, all other values returned as-is. -/
def clean_data : Value → Value
  | .vnull => .vnull
  | .vbool b => .vbool b
  | .vint n => .vint n
  | .vstr s => .vstr s
  | .vfloat f => if f.isInfOrNan then .vnull else .vfloat f
  | .vdict es => .vdict (cleanEntries es)
  | .vlist xs => .vlist (cleanValueList xs)
/-- The dict branch of `clean_data`: `data[key] = clean_data(value)` for
each entry. -/
def cleanEntries : Entries → Entries
  | .nil => .nil
  | .cons k v rest => .cons k (clean_data v) (cleanEntries rest)
/-- The list branch of `clean_data`: `[clean_data(item) for item in data]`. -/
def cleanValueList : ValueList → ValueList
  | .nil => .nil
  | .cons v rest => .cons (clean_data v) (cleanValueList rest)
end

/-- Modelled from the spec: the sanitizer's per-scalar contract — "every
floating-point value that is positive infinity, negative infinity, or
not-a-number is replaced by an explicit null marker; all other scalar types
pass through unchanged". -/
def sanitizeScalarSpec : Value → Value
  | .vfloat .posInf => .vnull
  | .vfloat .negInf => .vnull
  | .vfloat .nan => .vnull
  | v => v

mutual
/-- Modelled from the spec: `sanitize(value) -> value'`, "structurally
identical to `value`" and "applies recursively through mappings (per-key)
and ordered sequences (per-element)", with scalars rewritten by
`sanitizeScalarSpec`. -/
def sanitizeSpec : Value → Value
  | .vdict es => .vdict (sanitizeSpecEntries es)
  | .vlist xs => .vlist (sanitizeSpecValueList xs)
  | v => sanitizeScalarSpec v
/-- Spec-side per-key recursion through a mapping. -/
def sanitizeSpecEntries : Entries → Entries
  | .nil => .nil
  | .cons k v rest => .cons k (sanitizeSpec v) (sanitizeSpecEntries rest)
/-- Spec-side per-element recursion through a sequence. -/
def sanitizeSpecValueList : ValueList → ValueList
  | .nil => .nil
  | .cons v rest => .cons (sanitizeSpec v) (sanitizeSpecValueList rest)
end

/-! ## Query layer (`filter_telegrams`, main.py lines 364-406) -/

/-- The filter criteria object (`TelegramFilter` pydantic model, main.py
lines 85-141): every field is optional and defaults to unset. -/
structure TelegramFilter where
  country_code : Option String := none
  station_id : Option String := none
  date : Option String := none
  date_start : Option String := none
  date_end : Option String := none
  hour : Option Int := none
  temperature : Option PyFloat := none
  dew_point_temperature : Option PyFloat := none
  relative_humidity : Option PyFloat := none
  wind_dir : Option PyFloat := none
  wind_speed : Option PyFloat := none
  pressure : Option PyFloat := none
  sea_level_pressure : Option PyFloat := none
  maximum_temperature : Option PyFloat := none
  minimum_temperature : Option PyFloat := none
  precipitation_s1 : Option PyFloat := none
  precipitation_s3 : Option PyFloat := none
  pressure_tendency : Option PyFloat := none
  present_weather : Option String := none
  past_weather_1 : Option String := none
  past_weather_2 : Option String := none
  sunshine : Option PyFloat := none
  ground_state_snow : Option String := none
  ground_state : Option String := none
  fields_to_return : Option (List String) := none
deriving DecidableEq, Repr

/-- Whitespace stripped by Python `int(str)` before parsing. -/
def isPySpace (c : Char) : Bool :=
  c == ' ' || c == '\t' || c == '\n' || c == '\r' || c == '\x0b' || c == '\x0c'

/-- After the leading digit, Python `int` accepts further digits with single
underscores allowed between digits. -/
def underscoreDigitsTail : List Char → Bool
  | [] => true
  | '_' :: c :: rest => c.isDigit && underscoreDigitsTail rest
  | ['_'] => false
  | c :: rest => c.isDigit && underscoreDigitsTail rest

/-- A nonempty ASCII digit string with optional single underscores between
digits (the body Python `int` accepts after sign and whitespace). -/
def digitsWithUnderscores : List Char → Bool
  | [] => false
  | c :: rest => c.isDigit && underscoreDigitsTail rest

/-- Decimal value of such a digit string, ignoring underscores. -/
def digitsValue (cs : List Char) : Nat :=
  cs.foldl (fun a c => if c = '_' then a else a * 10 + (c.toNat - 48)) 0

/-- Strip leading and trailing whitespace, as Python `int(str)` does. -/
def stripPySpaces (cs : List Char) : List Char :=
  ((cs.dropWhile isPySpace).reverse.dropWhile isPySpace).reverse

/-- Model of Python `int(s)` on a character slice: strips whitespace, reads
an optional sign and then ASCII digits (single underscores permitted between
digits); any other input raises `ValueError`, modelled as `none`. -/
def pyIntChars (cs : List Char) : Option Int :=
  match stripPySpaces cs with
  | '+' :: rest =>
      if digitsWithUnderscores rest then some (digitsValue rest : Int) else none
  | '-' :: rest =>
      if digitsWithUnderscores rest then some (-(digitsValue rest : Int)) else none
  | rest =>
      if digitsWithUnderscores rest then some (digitsValue rest : Int) else none

/-- The MongoDB query dict built per collection: the only keys the code can
set are `data.station_id`, `data.year`, `data.month`, `data.day` and
`data.hour`; `none` means the key is absent from the dict. -/
structure Query where
  station_id : Option String := none
  year : Option Int := none
  month : Option Int := none
  day : Option Int := none
  hour : Option Int := none
deriving DecidableEq, Repr

/-- `if filter.hour is not None: query["data.hour"] = filter.hour`. -/
def Query.withHour (q : Query) (h : Option Int) : Query :=
  match h with
  | some n => { q with hour := some n }
  | none => q

/-- Outcome of one loop iteration of `filter_telegrams` for one collection:
either a query to run, or `skip` for the `continue` taken when the date
slices fail to parse. -/
inductive QueryOutcome where
  | skip
  | run (q : Query)
deriving DecidableEq, Repr

/-- `if filter.station_id: query["data.station_id"] = filter.station_id`:
the constraint is added only when the criterion is truthy, i.e. set and
nonempty. -/
def stationQuery : Option String → Query
  | some s => if s = "" then {} else { station_id := some s }
  | none => {}

/-- The query-building part of the `filter_telegrams` loop body (main.py
lines 369-385): `station_id` is added when truthy (set and nonempty); a
`date` that is set, truthy and at least 8 characters long has its slices
`[:4]`, `[4:6]`, `[6:8]` parsed with `int`, adding year/month/day on
success and triggering `continue` (`skip`) on `ValueError`; `hour` is added
whenever it is not `None`. -/
def buildQuery (f : TelegramFilter) : QueryOutcome :=
  match f.date with
  | some d =>
      if 8 ≤ d.length then
        match pyIntChars (d.toList.take 4), pyIntChars ((d.toList.drop 4).take 2),
              pyIntChars ((d.toList.drop 6).take 2) with
        | some y, some m, some dd =>
            QueryOutcome.run
              (({ stationQuery f.station_id with
                  year := some y, month := some m, day := some dd } : Query).withHour f.hour)
        | _, _, _ => QueryOutcome.skip
      else QueryOutcome.run ((stationQuery f.station_id).withHour f.hour)
  | none => QueryOutcome.run ((stationQuery f.station_id).withHour f.hour)

/-- A stored telegram record: `{id_telegram, data}` (the MongoDB `_id` is
always excluded by the projections the code uses, so it is not modelled). -/
structure Record where
  id_telegram : String
  data : Entries
deriving DecidableEq, Repr

/-- MongoDB equality match on a dotted path `data.k`. -/
def Record.fieldEq (r : Record) (k : String) (v : Value) : Bool :=
  r.data.lookup k == some v

/-- Whether a stored record satisfies the conjunction of the query dict's
equality constraints. -/
def matchesQuery (q : Query) (r : Record) : Bool :=
  (match q.station_id with
   | some s => r.fieldEq "station_id" (.vstr s)
   | none => true) &&
  (match q.year with | some y => r.fieldEq "year" (.vint y) | none => true) &&
  (match q.month with | some m => r.fieldEq "month" (.vint m) | none => true) &&
  (match q.day with | some d => r.fieldEq "day" (.vint d) | none => true) &&
  (match q.hour with | some h => r.fieldEq "hour" (.vint h) | none => true)

/-- The record as returned without field projection: the stored document
minus `_id`, i.e. `{"id_telegram": ..., "data": {...}}`. -/
def Record.fullDoc (r : Record) : Value :=
  .vdict (.cons "id_telegram" (.vstr r.id_telegram) (.cons "data" (.vdict r.data) .nil))

/-- The projection built from `fields_to_return` (main.py lines 388-391):
`{"_id": False}` plus `data.<field>: True` per listed field. An unset or
empty list is falsy, so the full record is returned; otherwise MongoDB
inclusion projection returns only the listed `data` subfields — in
particular `id_telegram` is not listed and is therefore dropped. -/
def projectDoc (fields : Option (List String)) (r : Record) : Value :=
  match fields with
  | some fs =>
      if fs.isEmpty then r.fullDoc
      else .vdict (.cons "data" (.vdict (r.data.filterKeys fs)) .nil)
  | none => r.fullDoc

/-- A named per-country collection of the `telegram` database. -/
structure Collection where
  name : String
  docs : List Record
deriving DecidableEq, Repr

/-- The document store: its collections in iteration order. -/
structure Db where
  collections : List Collection
deriving DecidableEq, Repr

/-- `db.list_collection_names()`. -/
def Db.collectionNames (db : Db) : List String :=
  db.collections.map Collection.name

/-- `db[name]`: accessing a collection that does not exist yields an empty
collection (MongoDB creates collections lazily). -/
def Db.getCollection (db : Db) (n : String) : List Record :=
  match db.collections.find? (fun c => c.name == n) with
  | some c => c.docs
  | none => []

/-- `[filter.country_code] if filter.country_code else
db.list_collection_names()`: a set, nonempty country code targets exactly
that collection; unset (or empty, which is falsy) targets every collection. -/
def collections_to_query (db : Db) (f : TelegramFilter) : List String :=
  match f.country_code with
  | some cc => if cc = "" then db.collectionNames else [cc]
  | none => db.collectionNames

/-- One iteration of the `filter_telegrams` loop for collection `n`: build
the query (possibly `continue`-ing, which contributes no results), run
`find` with the projection, and collect the matches. -/
def queryCollection (db : Db) (f : TelegramFilter) (n : String) : List Value :=
  match buildQuery f with
  | .skip => []
  | .run q =>
      ((db.getCollection n).filter (matchesQuery q)).map (projectDoc f.fields_to_return)

/-- The response of `POST /filter_telegrams/`: either the no-data sentinel
`{"message": "No data found for the given filters"}` or `{"results": [...]}`. -/
inductive FilterResult where
  | noData
  | results (rs : List Value)
deriving DecidableEq, Repr

/-- Shallow embedding of `filter_telegrams` (main.py lines 364-406): query
each targeted collection, concatenate the per-collection results in
iteration order, apply `clean_data` to the combined list, and return the
no-data sentinel when it is empty. -/
def filter_telegrams (db : Db) (f : TelegramFilter) : FilterResult :=
  let results := ((collections_to_query db f).map (queryCollection db f)).flatten
  let cleaned := results.map clean_data
  if cleaned.isEmpty then .noData else .results cleaned

/-! ## Update handler (`update_data_in_collection`, main.py lines 293-307) -/

/-- MongoDB `$set` on the subdocument path `data.k`: replaces the value of
an existing field in place, or appends the field at the end. -/
def Entries.setKey : Entries → String → Value → Entries
  | .nil, k, v => .cons k v .nil
  | .cons k1 v1 rest, k, v =>
      if k1 = k then .cons k v rest else .cons k1 v1 (rest.setKey k v)

/-- Apply the `$set` document `{data.f: v for (f, v) in updates}` to one
record. -/
def Record.applySet (r : Record) (updates : List (String × Value)) : Record :=
  { r with data := updates.foldl (fun d p => d.setKey p.1 p.2) r.data }

/-- `collection.update_one({"id_telegram": id}, {"$set": ...})`: updates the
first record whose `id_telegram` matches; the returned flag is
`modified_count == 1`, which MongoDB reports as `0` when the `$set` changed
nothing (all targeted fields already held the given values). -/
def updateFirst : List Record → String → List (String × Value) → List Record × Bool
  | [], _, _ => ([], false)
  | r :: rest, id_val, updates =>
      if r.id_telegram = id_val then
        let r1 := r.applySet updates
        (r1 :: rest, decide (r1 ≠ r))
      else
        let p := updateFirst rest id_val updates
        (r :: p.1, p.2)

/-- Shallow embedding of the PUT handler `update_data_in_collection`
(main.py lines 293-307): prefixes every update key with `data.`, runs
`update_one`, and reports success exactly when `modified_count == 1`.
The model assumes a nonempty update mapping (MongoDB rejects an empty
`$set` with a server error). -/
def update_data_in_collection (docs : List Record) (id_teleg : String)
    (dynamic_updates : List (String × Value)) : List Record × Bool :=
  updateFirst docs id_teleg dynamic_updates

/-! ## Ingestion (`download_and_process_telegrams`, main.py lines 46-61) -/

/-- The per-record step of the ingestion loop: read `document["id_telegram"]`
(a missing key raises `KeyError`, modelled as `none`) and pop the key from
the record's own payload, yielding the identifier value and the remaining
`data` entries. -/
def mkMongoDoc (document : Entries) : Option (Value × Entries) :=
  match document.lookup "id_telegram" with
  | none => none
  | some v => some (v, document.eraseKey "id_telegram")

/-- The document handed to the store: `{"id_telegram": id, "data": {...}}`. -/
def data_for_mongo (idv : Value) (d : Entries) : Value :=
  .vdict (.cons "id_telegram" idv (.cons "data" (.vdict d) .nil))

/-- The ingestion loop over the processor's records: the sequence of
documents passed to `insert_or_update_document` (the upsert itself lives in
`mongo_db.mongo_tools`, outside this file's source; only the documents the
loop hands to it are modelled), or `none` when a record without
`id_telegram` raises `KeyError`. -/
def processDocuments : List Entries → Option (List Value)
  | [] => some []
  | doc :: rest =>
      match mkMongoDoc doc with
      | none => none
      | some p =>
          match processDocuments rest with
          | none => none
          | some t => some (data_for_mongo p.1 p.2 :: t)

/-- Shallow embedding of `download_and_process_telegrams` (main.py lines
46-61) as a function of the records returned by the external processor: it
yields the upserted documents together with the function's Python return
value — the function body has no `return` statement, so it returns `None`
(`Value.vnull`). -/
def download_and_process_telegrams (documents : List Entries) :
    Option (List Value × Value) :=
  (processDocuments documents).map (fun docs => (docs, Value.vnull))

/-! ## Concrete example data used by counterexamples and witnesses -/

/-- The dict entries of a Value that is a dict (and `nil` otherwise). -/
def Value.dictEntries : Value → Entries
  | .vdict es => es
  | _ => .nil

/-- The entries of the `data` subdocument of a returned record value. -/
def docDataEntries (v : Value) : Entries :=
  match v.dictEntries.lookup "data" with
  | some (.vdict es) => es
  | _ => .nil

/-- A sample stored record in the `ua` collection. -/
def recordA : Record :=
  { id_telegram := "A",
    data := .cons "station_id" (.vstr "34504") (.cons "temperature" (.vint 25) .nil) }

/-- A sample stored record in the `bel` collection. -/
def recordB : Record :=
  { id_telegram := "B", data := .cons "station_id" (.vstr "26702") .nil }

/-- A store holding one `ua` collection with one record. -/
def dbUA : Db := { collections := [{ name := "ua", docs := [recordA] }] }

/-- A store holding two collections. -/
def dbTwo : Db :=
  { collections := [{ name := "bel", docs := [recordB] }, { name := "ua", docs := [recordA] }] }

/-- Criteria whose date is 8 characters long but not made of digits. -/
def fBadDate : TelegramFilter := { date := some "badbadba" }

/-- Criteria projecting the `ua` collection onto `station_id`. -/
def fProject : TelegramFilter :=
  { country_code := some "ua", fields_to_return := some ["station_id"] }

/-- Criteria with an empty-string station id. -/
def fEmptyStation : TelegramFilter := { station_id := some "" }

/-- The value `filter_telegrams dbUA fProject` returns for `recordA`. -/
def projectedA : Value :=
  .vdict (.cons "data" (.vdict (.cons "station_id" (.vstr "34504") .nil)) .nil)

/-- A processor record for ingestion examples. -/
def ingestDocA : Entries :=
  .cons "id_telegram" (.vstr "A") (.cons "temperature" (.vint 25) .nil)

/-- A second processor record for ingestion examples. -/
def ingestDocB : Entries :=
  .cons "id_telegram" (.vstr "B") (.cons "temperature" (.vint 20) .nil)

/-! ## Helper lemmas -/

mutual
theorem clean_data_eq_sanitizeSpec_aux : ∀ v, clean_data v = sanitizeSpec v
  | .vnull => rfl
  | .vbool b => rfl
  | .vint n => rfl
  | .vstr s => rfl
  | .vfloat f => by cases f <;> rfl
  | .vdict es => by
      simp only [clean_data, sanitizeSpec, cleanEntries_eq_sanitizeSpecEntries_aux es]
  | .vlist xs => by
      simp only [clean_data, sanitizeSpec, cleanValueList_eq_sanitizeSpecValueList_aux xs]
theorem cleanEntries_eq_sanitizeSpecEntries_aux :
    ∀ es, cleanEntries es = sanitizeSpecEntries es
  | .nil => rfl
  | .cons k v rest => by
      simp only [cleanEntries, sanitizeSpecEntries, clean_data_eq_sanitizeSpec_aux v,
        cleanEntries_eq_sanitizeSpecEntries_aux rest]
theorem cleanValueList_eq_sanitizeSpecValueList_aux :
    ∀ xs, cleanValueList xs = sanitizeSpecValueList xs
  | .nil => rfl
  | .cons v rest => by
      simp only [cleanValueList, sanitizeSpecValueList, clean_data_eq_sanitizeSpec_aux v,
        cleanValueList_eq_sanitizeSpecValueList_aux rest]
end

mutual
theorem clean_data_idem_aux : ∀ v, clean_data (clean_data v) = clean_data v
  | .vnull => rfl
  | .vbool b => rfl
  | .vint n => rfl
  | .vstr s => rfl
  | .vfloat f => by cases f <;> rfl
  | .vdict es => by simp only [clean_data, cleanEntries_idem_aux es]
  | .vlist xs => by simp only [clean_data, cleanValueList_idem_aux xs]
theorem cleanEntries_idem_aux : ∀ es, cleanEntries (cleanEntries es) = cleanEntries es
  | .nil => rfl
  | .cons k v rest => by
      simp only [cleanEntries, clean_data_idem_aux v, cleanEntries_idem_aux rest]
theorem cleanValueList_idem_aux :
    ∀ xs, cleanValueList (cleanValueList xs) = cleanValueList xs
  | .nil => rfl
  | .cons v rest => by
      simp only [cleanValueList, clean_data_idem_aux v, cleanValueList_idem_aux rest]
end

/-! ## Claim C1: the sanitizer replaces exactly the non-finite floats -/

/-- C1: for every nested value tree, `clean_data` coincides with the spec's
`sanitize` contract: it returns a structurally identical tree in which
exactly the floats that are `inf`, `-inf` or `nan` are replaced by null, at
arbitrary depth through dicts (per key) and lists (per element), and every
other value passes through unchanged. -/
theorem clean_data_eq_sanitizeSpec (v : Value) : clean_data v = sanitizeSpec v :=
  clean_data_eq_sanitizeSpec_aux v

/-! ## Claim C7: the sanitizer is idempotent -/

/-- C7: `clean_data (clean_data x) = clean_data x` for every
JSON-representable value tree `x`. -/
theorem clean_data_idempotent (v : Value) : clean_data (clean_data v) = clean_data v :=
  clean_data_idem_aux v

/-! ## Helper lemmas about the query builder -/

theorem stationQuery_of_ne (sid : Option String) (hs : sid ≠ some "") :
    stationQuery sid = { station_id := sid } := by
  cases sid with
  | none => rfl
  | some s =>
      have hne : ¬ s = "" := fun e => hs (by rw [e])
      simp [stationQuery, hne]

theorem Query.withHour_station (q : Query) (h : Option Int) :
    (q.withHour h).station_id = q.station_id := by
  cases h <;> rfl

theorem buildQuery_congr (f g : TelegramFilter)
    (h1 : stationQuery f.station_id = stationQuery g.station_id)
    (hd : f.date = g.date) (hh : f.hour = g.hour) :
    buildQuery f = buildQuery g := by
  unfold buildQuery
  rw [h1, hd, hh]

theorem buildQuery_run_station (f : TelegramFilter) (q : Query)
    (hq : buildQuery f = QueryOutcome.run q) :
    q.station_id = (stationQuery f.station_id).station_id := by
  unfold buildQuery at hq
  split at hq
  · split at hq
    · split at hq
      · injection hq with h2
        subst h2
        rw [Query.withHour_station]
      · exact absurd hq (fun h2 => QueryOutcome.noConfusion h2)
    · injection hq with h2
      subst h2
      rw [Query.withHour_station]
  · injection hq with h2
    subst h2
    rw [Query.withHour_station]

theorem filter_telegrams_congr (db : Db) (f g : TelegramFilter)
    (hc : f.country_code = g.country_code) (hq : buildQuery f = buildQuery g)
    (hp : f.fields_to_return = g.fields_to_return) :
    filter_telegrams db f = filter_telegrams db g := by
  unfold filter_telegrams queryCollection collections_to_query
  rw [hc, hq, hp]

/-! ## Claim C2: the query predicate is exactly the documented conjunction -/

/-- C2: the query predicate built by `filter_telegrams` is exactly the
conjunction of an exact `data.station_id` match when `station_id` is
present, exact `data.year`/`data.month`/`data.day` matches parsed from the
first 8 digits of `date` when `date` is present, and an exact `data.hour`
match when `hour` is set (zero included); the query is a function of those
three criteria alone, so no other criteria field contributes a constraint.
In particular `{country_code := "ua", date := "20240901", hour := 18}`
targets only the `ua` collection with the predicate
`{year := 2024, month := 9, day := 1, hour := 18}`. -/
theorem buildQuery_is_documented_conjunction :
    (∀ f : TelegramFilter, f.station_id ≠ some "" → f.date = none →
      buildQuery f = QueryOutcome.run { station_id := f.station_id, hour := f.hour }) ∧
    (∀ (f : TelegramFilter) (d : String) (y m dd : Int),
      f.station_id ≠ some "" → f.date = some d → 8 ≤ d.length →
      pyIntChars (d.toList.take 4) = some y →
      pyIntChars ((d.toList.drop 4).take 2) = some m →
      pyIntChars ((d.toList.drop 6).take 2) = some dd →
      buildQuery f = QueryOutcome.run
        { station_id := f.station_id, year := some y, month := some m, day := some dd,
          hour := f.hour }) ∧
    (∀ db : Db,
      collections_to_query db
          { country_code := some "ua", date := some "20240901", hour := some 18 } = ["ua"]) ∧
    buildQuery { country_code := some "ua", date := some "20240901", hour := some 18 } =
      QueryOutcome.run { year := some 2024, month := some 9, day := some 1, hour := some 18 } := by
  refine ⟨?_, ?_, ?_, by decide⟩
  · intro f hs hd
    unfold buildQuery
    rw [hd, stationQuery_of_ne _ hs]
    cases hh : f.hour <;> simp [Query.withHour]
  · intro f d y m dd hs hd hlen h4 h46 h68
    simp only [buildQuery, hd, hlen, if_true, h4, h46, h68, stationQuery_of_ne _ hs]
    cases hh : f.hour <;> simp [Query.withHour]
  · intro db
    rfl

/-- C2 witness: the theorem applied at concrete criteria, including
`hour = 0` as a set value. -/
theorem buildQuery_is_documented_conjunction_witness :
    buildQuery { station_id := some "34504", hour := some 0 } =
      QueryOutcome.run { station_id := some "34504", hour := some 0 } ∧
    buildQuery { station_id := some "34504", date := some "20240901" } =
      QueryOutcome.run
        { station_id := some "34504", year := some 2024, month := some 9, day := some 1 } :=
  ⟨buildQuery_is_documented_conjunction.1 _ (by decide) rfl,
   buildQuery_is_documented_conjunction.2.1 _ "20240901" 2024 9 1 (by decide) rfl (by decide)
     (by decide) (by decide) (by decide)⟩

/-! ## Claim C3: unparseable dates -/

/-- C3 counterexample: with a record present in the `ua` collection, the
criteria `{date := "badbadba"}` yield the no-data sentinel, while the same
criteria with `date` unset return the record — the bad date does not make
the query behave "as if date were unset"; the `continue` skips the
collection entirely. -/
theorem filter_badDate_not_as_unset :
    filter_telegrams dbUA fBadDate = FilterResult.noData ∧
    filter_telegrams dbUA { fBadDate with date := none } =
      FilterResult.results [recordA.fullDoc] ∧
    FilterResult.noData ≠ FilterResult.results [recordA.fullDoc] :=
  ⟨by decide, by decide, by decide⟩

/-- C3 amended: a `date` of length at least 8 whose slices `[:4]`, `[4:6]`,
`[6:8]` do not all parse as integers makes `filter_telegrams` skip every
targeted collection via `continue`, so the whole request returns the
no-data sentinel (it never errors, but it also queries nothing). -/
theorem filter_badDate_skips_collections (db : Db) (f : TelegramFilter) (d : String)
    (hd : f.date = some d) (hlen : 8 ≤ d.length)
    (hbad : pyIntChars (d.toList.take 4) = none ∨
      pyIntChars ((d.toList.drop 4).take 2) = none ∨
      pyIntChars ((d.toList.drop 6).take 2) = none) :
    filter_telegrams db f = FilterResult.noData := by
  have hq : buildQuery f = QueryOutcome.skip := by
    cases h4 : pyIntChars (d.toList.take 4) <;>
      cases h46 : pyIntChars ((d.toList.drop 4).take 2) <;>
        cases h68 : pyIntChars ((d.toList.drop 6).take 2) <;>
          simp_all [buildQuery, hd, hlen]
  have hcoll : queryCollection db f = fun _ => ([] : List Value) := by
    funext n
    unfold queryCollection
    rw [hq]
  unfold filter_telegrams
  rw [hcoll]
  simp

/-- C3 amended witness: the bad date `"badbadba"` against a two-collection
store. -/
theorem filter_badDate_skips_collections_witness :
    filter_telegrams dbTwo fBadDate = FilterResult.noData :=
  filter_badDate_skips_collections dbTwo fBadDate "badbadba" rfl (by decide)
    (Or.inl (by decide))

/-! ## Claim C10: an empty-string station_id is treated as unset -/

/-- C10: criteria whose `station_id` is the empty string build the query
with no `data.station_id` constraint; the whole request behaves exactly as
if `station_id` were unset (the presence test is Python truthiness, not an
is-None check). -/
theorem station_empty_ignored (db : Db) (f : TelegramFilter)
    (h : f.station_id = some "") :
    buildQuery f = buildQuery { f with station_id := none } ∧
    (∀ q, buildQuery f = QueryOutcome.run q → q.station_id = none) ∧
    filter_telegrams db f = filter_telegrams db { f with station_id := none } := by
  have hbq : buildQuery f = buildQuery { f with station_id := none } :=
    buildQuery_congr f _ (by rw [h]; rfl) rfl rfl
  refine ⟨hbq, ?_, filter_telegrams_congr db f _ rfl hbq rfl⟩
  intro q hq
  have h2 := buildQuery_run_station f q hq
  rw [h] at h2
  exact h2.trans (by decide)

/-- C10 witness: the theorem applied to the criteria
`{station_id := some ""}`. -/
theorem station_empty_ignored_witness :
    buildQuery fEmptyStation = buildQuery { fEmptyStation with station_id := none } :=
  (station_empty_ignored dbUA fEmptyStation rfl).1

/-! ## Claim C4: the PUT handler's success condition -/

/-- C4 code-bug demonstration: the handler decides success via
`modified_count == 1`. For the existing record `recordA` and the update
`{"temperature": 25}`, whose value already equals the stored one, the
`$set` modifies nothing, so `update_data_in_collection` leaves the
collection unchanged and reports failure ("Дані за цей id не знайдені")
although a record with that `id_telegram` exists — the "success iff a
record existed" contract fails on no-op updates. -/
theorem update_modified_count_bug :
    ([recordA].any (fun r => r.id_telegram == "A")) = true ∧
    update_data_in_collection [recordA] "A" [("temperature", Value.vint 25)] =
      ([recordA], false) :=
  ⟨by decide, by decide⟩

/-! ## Claim C5: the ingestion return value -/

/-- C5 counterexample: ingesting two processor records upserts two
documents, but the operation's return value is `None`, not the count 2 —
the body of `download_and_process_telegrams` contains no `return`
statement. -/
theorem ingest_returns_none_not_count :
    download_and_process_telegrams [ingestDocA, ingestDocB] =
      some ([data_for_mongo (.vstr "A") (.cons "temperature" (.vint 25) .nil),
             data_for_mongo (.vstr "B") (.cons "temperature" (.vint 20) .nil)],
            Value.vnull) ∧
    Value.vnull ≠ Value.vint 2 :=
  ⟨by decide, by decide⟩

/-- C5 amended: when every record carries an `id_telegram`, the ingestion
upserts exactly one document per record received and returns `None` (no
value); the count is only printed, never returned. -/
theorem ingest_returns_null (documents : List Entries) (docs : List Value)
    (h : processDocuments documents = some docs) :
    download_and_process_telegrams documents = some (docs, Value.vnull) ∧
    docs.length = documents.length := by
  constructor
  · unfold download_and_process_telegrams
    rw [h]
    rfl
  · induction documents generalizing docs with
    | nil =>
        unfold processDocuments at h
        cases h
        rfl
    | cons doc rest ih =>
        unfold processDocuments at h
        cases hm : mkMongoDoc doc with
        | none => rw [hm] at h; exact absurd h (by simp)
        | some p =>
            rw [hm] at h
            cases hr : processDocuments rest with
            | none => rw [hr] at h; exact absurd h (by simp)
            | some t =>
                rw [hr] at h
                injection h with h2
                subst h2
                simp [ih t hr]

/-- C5 amended witness: one ingested record. -/
theorem ingest_returns_null_witness :
    download_and_process_telegrams [ingestDocA] =
      some ([data_for_mongo (.vstr "A") (.cons "temperature" (.vint 25) .nil)], Value.vnull) ∧
    ([data_for_mongo (.vstr "A") (.cons "temperature" (.vint 25) .nil)] : List Value).length =
      ([ingestDocA] : List Entries).length :=
  ingest_returns_null [ingestDocA]
    [data_for_mongo (.vstr "A") (.cons "temperature" (.vint 25) .nil)] rfl

/-! ## Claim C6: fan-out over all collections -/

/-- C6: with no `country_code`, `filter_telegrams` queries every collection
independently and returns the sanitized concatenation of the per-collection
results in collection-iteration order; an empty concatenation yields the
no-data sentinel, a response constructor distinct from every results list
(store failures raise exceptions and produce neither). -/
theorem filter_fanout (db : Db) (f : TelegramFilter) (h : f.country_code = none) :
    filter_telegrams db f =
      (if ((db.collectionNames.map (queryCollection db f)).flatten).isEmpty
       then FilterResult.noData
       else FilterResult.results
         (((db.collectionNames.map (queryCollection db f)).flatten).map clean_data)) ∧
    ∀ rs : List Value, FilterResult.noData ≠ FilterResult.results rs := by
  constructor
  · have hm : ∀ l : List Value, (List.map clean_data l).isEmpty = l.isEmpty := by
      intro l
      cases l <;> rfl
    simp only [filter_telegrams, collections_to_query, h]
    rw [hm]
  · intro rs h2
    exact FilterResult.noConfusion h2

/-- C6 witness: the theorem applied to a two-collection store with empty
criteria. -/
theorem filter_fanout_witness :
    filter_telegrams dbTwo {} =
      (if ((dbTwo.collectionNames.map (queryCollection dbTwo {})).flatten).isEmpty
       then FilterResult.noData
       else FilterResult.results
         (((dbTwo.collectionNames.map (queryCollection dbTwo {})).flatten).map clean_data)) :=
  (filter_fanout dbTwo {} rfl).1

/-! ## Claim C8: shape of the upserted documents -/

theorem Entries.countKey_eraseKey : ∀ (es : Entries) (k : String),
    (es.eraseKey k).countKey k = 0
  | .nil, _ => rfl
  | .cons k1 v rest, k => by
      unfold Entries.eraseKey
      by_cases hk : k1 = k
      · rw [if_pos hk]
        exact countKey_eraseKey rest k
      · rw [if_neg hk]
        unfold Entries.countKey
        rw [if_neg hk, countKey_eraseKey rest k]

/-- C8: every document the ingestion loop hands to the upsert has the shape
`{id_telegram, data}`: its top level consists of exactly the keys
`id_telegram` (once) and `data`, and the `data` payload carries no
`id_telegram` entry (the key was popped from the record before the
upsert). -/
theorem ingest_upserts_shape (documents : List Entries) (docs : List Value)
    (h : processDocuments documents = some docs) :
    ∀ v ∈ docs, v.dictEntries.keys = ["id_telegram", "data"] ∧
      v.dictEntries.countKey "id_telegram" = 1 ∧
      (docDataEntries v).countKey "id_telegram" = 0 := by
  induction documents generalizing docs with
  | nil =>
      unfold processDocuments at h
      cases h
      intro v hv
      exact absurd hv (List.not_mem_nil v)
  | cons doc rest ih =>
      unfold processDocuments at h
      cases hm : mkMongoDoc doc with
      | none => rw [hm] at h; exact absurd h (by simp)
      | some p =>
          rw [hm] at h
          cases hr : processDocuments rest with
          | none => rw [hr] at h; exact absurd h (by simp)
          | some t =>
              rw [hr] at h
              injection h with h2
              subst h2
              intro v hv
              rcases List.mem_cons.mp hv with hv1 | hv2
              · subst hv1
                have hp : p.2 = doc.eraseKey "id_telegram" := by
                  unfold mkMongoDoc at hm
                  cases hl : doc.lookup "id_telegram" with
                  | none => rw [hl] at hm; exact absurd hm (by simp)
                  | some w =>
                      rw [hl] at hm
                      injection hm with hm2
                      rw [← hm2]
                refine ⟨rfl, ?_, ?_⟩
                · simp [data_for_mongo, Value.dictEntries, Entries.countKey]
                · have hd : docDataEntries (data_for_mongo p.1 p.2) = p.2 := by
                    simp [docDataEntries, data_for_mongo, Value.dictEntries, Entries.lookup]
                  rw [hd, hp]
                  exact Entries.countKey_eraseKey doc "id_telegram"
              · exact ih t hr v hv2

/-- C8 witness: the document built from a record that duplicates
`id_telegram` inside its payload. -/
theorem ingest_upserts_shape_witness :
    (data_for_mongo (.vstr "A") (.cons "temperature" (.vint 25) .nil)).dictEntries.keys =
      ["id_telegram", "data"] ∧
    (data_for_mongo (.vstr "A")
        (.cons "temperature" (.vint 25) .nil)).dictEntries.countKey "id_telegram" = 1 ∧
    (docDataEntries
        (data_for_mongo (.vstr "A") (.cons "temperature" (.vint 25) .nil))).countKey
      "id_telegram" = 0 :=
  ingest_upserts_shape [ingestDocA]
    [data_for_mongo (.vstr "A") (.cons "temperature" (.vint 25) .nil)] rfl
    (data_for_mongo (.vstr "A") (.cons "temperature" (.vint 25) .nil)) (by simp)

/-! ## Claim C9: projection of returned records -/

/-- C9 counterexample: with `fields_to_return := ["station_id"]`, the
record stored under `id_telegram = "A"` comes back as
`{"data": {"station_id": ...}}` — the identifier is not part of the
response, contradicting "restricted to the named sub-fields plus the
record's identifier". -/
theorem filter_projection_no_id_cex :
    filter_telegrams dbUA fProject = FilterResult.results [projectedA] ∧
    projectedA.dictEntries.countKey "id_telegram" = 0 ∧
    recordA.id_telegram = "A" :=
  ⟨by decide, by decide, rfl⟩

theorem filter_results_member (db : Db) (f : TelegramFilter) (rs : List Value)
    (h : filter_telegrams db f = FilterResult.results rs) (v : Value) (hv : v ∈ rs) :
    ∃ n ∈ collections_to_query db f, ∃ r ∈ db.getCollection n, ∃ q,
      buildQuery f = QueryOutcome.run q ∧ matchesQuery q r = true ∧
      v = clean_data (projectDoc f.fields_to_return r) := by
  have hrs : rs =
      (((collections_to_query db f).map (queryCollection db f)).flatten).map clean_data := by
    simp only [filter_telegrams] at h
    split at h
    · exact absurd h (fun h2 => FilterResult.noConfusion h2)
    · injection h with h2
      exact h2.symm
  rw [hrs] at hv
  rcases List.mem_map.mp hv with ⟨w, hw, hwv⟩
  rcases List.mem_flatten.mp hw with ⟨l, hl, hwl⟩
  rcases List.mem_map.mp hl with ⟨n, hn, hnl⟩
  subst hnl
  unfold queryCollection at hwl
  cases hb : buildQuery f with
  | skip => rw [hb] at hwl; exact absurd hwl (List.not_mem_nil w)
  | run q =>
      rw [hb] at hwl
      rcases List.mem_map.mp hwl with ⟨r, hr, hrw⟩
      rcases List.mem_filter.mp hr with ⟨hrmem, hrq⟩
      exact ⟨n, hn, r, hrmem, q, rfl, hrq, by rw [← hwv, ← hrw]⟩

theorem cleanEntries_keys : ∀ es : Entries, (cleanEntries es).keys = es.keys
  | .nil => rfl
  | .cons k v rest => by simp [cleanEntries, Entries.keys, cleanEntries_keys rest]

theorem keys_filterKeys_all : ∀ (es : Entries) (fs : List String),
    ((es.filterKeys fs).keys).all (fun k => decide (k ∈ fs)) = true
  | .nil, _ => rfl
  | .cons k v rest, fs => by
      unfold Entries.filterKeys
      by_cases hk : k ∈ fs
      · rw [if_pos hk]
        simp [Entries.keys, List.all_cons, keys_filterKeys_all rest fs, hk]
      · rw [if_neg hk]
        exact keys_filterKeys_all rest fs

/-- C9 amended: when `fields_to_return` is a nonempty list `fs`, every
record returned by `filter_telegrams` is a dict with the single top-level
key `data`, whose entries all carry keys from `fs` — the identifier
`id_telegram` is not included; when `fields_to_return` is unset, each
returned value is the sanitized full record `{id_telegram, data}`. -/
theorem filter_projection_excludes_id (db : Db) (f : TelegramFilter) (rs : List Value)
    (hres : filter_telegrams db f = FilterResult.results rs) :
    (∀ fs, f.fields_to_return = some fs → fs ≠ [] →
      ∀ v ∈ rs, v.dictEntries.keys = ["data"] ∧
        ((docDataEntries v).keys).all (fun k => decide (k ∈ fs)) = true) ∧
    (f.fields_to_return = none →
      ∀ v ∈ rs, ∃ r : Record, v = clean_data r.fullDoc) := by
  constructor
  · intro fs hf hne v hv
    rcases filter_results_member db f rs hres v hv with ⟨n, hn, r, hr, q, hbq, hmq, hveq⟩
    rw [hf] at hveq
    have hfse : fs.isEmpty = false := by
      cases fs with
      | nil => exact absurd rfl hne
      | cons a l => rfl
    simp only [projectDoc, hfse, Bool.false_eq_true, if_false] at hveq
    subst hveq
    constructor
    · rfl
    · have hd : docDataEntries
          (clean_data (.vdict (.cons "data" (.vdict (r.data.filterKeys fs)) .nil))) =
          cleanEntries (r.data.filterKeys fs) := by
        simp [clean_data, cleanEntries, docDataEntries, Value.dictEntries, Entries.lookup]
      rw [hd, ]
      rw [show (cleanEntries (r.data.filterKeys fs)).keys = (r.data.filterKeys fs).keys from
        cleanEntries_keys _]
      exact keys_filterKeys_all r.data fs
  · intro hf v hv
    rcases filter_results_member db f rs hres v hv with ⟨n, hn, r, hr, q, hbq, hmq, hveq⟩
    rw [hf] at hveq
    exact ⟨r, hveq⟩

/-- C9 amended witness: the theorem applied to the store `dbUA` and the
projecting criteria `fProject`. -/
theorem filter_projection_excludes_id_witness :
    projectedA.dictEntries.keys = ["data"] ∧
    ((docDataEntries projectedA).keys).all (fun k => decide (k ∈ ["station_id"])) = true :=
  (filter_projection_excludes_id dbUA fProject [projectedA] (by decide)).1 ["station_id"] rfl
    (by decide) projectedA (by simp)
